import Mathlib

/-!
Shallow embedding of the ShuttleMidi core (Contour ShuttlExpress → MIDI
control-change bridge): the report decoder (`readdevice` in
devices/shuttlexpress.go), the event router (`readshuttle` in main), the
command dispatcher (`commandExecutor` in devices/midicontroller.go) and the
session controller (`startListeners` in main).

Machine integers are modelled as `Int`/`Nat` with explicit reductions modulo
2^8 where Go's `uint8`/`int8` arithmetic wraps.
-/

namespace ShuttleMidi

/-- Go's `int8(x)` for an arbitrary integer: the representative of
`x mod 256` in `[-128, 127]`. -/
def int8wrap (x : Int) : Int := (x + 128) % 256 - 128

/-- Go's `uint8(x)` for an arbitrary integer: the representative of
`x mod 256` in `[0, 255]`, as a `Nat`. -/
def uint8wrap (x : Int) : Nat := (x % 256).toNat

/-- The events travelling over the `ShuttleStatus` channels
(`Wheel_position`, `Dial_direction`, `Button1_pressed` … `Button5_pressed`):
produced by `readdevice`, consumed by `readshuttle`. Wheel and dial values
are `int8` in Go, modelled as `Int`. -/
inductive ControlEvent where
  | wheelPosition (wp : Int)
  | dialDirection (dd : Int)
  | button1 (b : Bool)
  | button2 (b : Bool)
  | button3 (b : Bool)
  | button4 (b : Bool)
  | button5 (b : Bool)
  deriving DecidableEq, Repr

/-- `midiControllerCommand` (midicontroller.go): one command for the
dispatcher. `controller` and `value` are `uint8` in Go; `rep` is the
`repeat` flag requesting sustained retransmission. -/
structure midiControllerCommand where
  controller : Nat
  value : Nat
  rep : Bool
  deriving DecidableEq, Repr

/-- The event router of `readshuttle` (main.go, the `select` body): maps one
`ControlEvent` to the list of `SendCommand(controller, value, repeat)` calls
it performs, in order. The arithmetic `uint8(18*(8-wp))` / `uint8(18*(-wp))`
is `int8` multiplication followed by a `uint8` conversion, hence the wraps. -/
def readshuttleEvent : ControlEvent → List midiControllerCommand
  | .wheelPosition wp =>
      if wp > 0 ∧ wp ≤ 7 then
        -- Invert positive wheel positions (SDR Console Tune Up workaround)
        [⟨0, uint8wrap (int8wrap (18 * (8 - wp))), true⟩]
      else if wp ≥ -7 ∧ wp < 0 then
        [⟨1, uint8wrap (int8wrap (18 * (-wp))), true⟩]
      else
        [⟨0, 255, false⟩, ⟨1, 255, false⟩]
  | .dialDirection dd =>
      if dd = 1 then [⟨2, 2, false⟩] else [⟨2, 1, false⟩]
  | .button1 b => [⟨3, if b then 127 else 0, false⟩]
  | .button2 b => [⟨4, if b then 127 else 0, false⟩]
  | .button3 b => [⟨5, if b then 127 else 0, false⟩]
  | .button4 b => [⟨6, if b then 127 else 0, false⟩]
  | .button5 b => [⟨7, if b then 127 else 0, false⟩]

/-- The button event with identifier `id` (1..5); other identifiers do not
name a button channel. -/
def buttonEvent (id : Nat) (b : Bool) : Option ControlEvent :=
  match id with
  | 1 => some (.button1 b)
  | 2 => some (.button2 b)
  | 3 => some (.button3 b)
  | 4 => some (.button4 b)
  | 5 => some (.button5 b)
  | _ => none

/-- The per-control last-observed values of `ShuttleStatus`
(shuttlexpress.go): `wheel_value` is `int8`, `dial_value` is `uint8`
(kept as an `Int` in `[0, 256)` by the decoder), buttons are booleans. -/
structure DeviceState where
  wheel_value : Int
  dial_value : Int
  button1_value : Bool
  button2_value : Bool
  button3_value : Bool
  button4_value : Bool
  button5_value : Bool
  deriving DecidableEq, Repr

/-- The bytes of one 48-byte HID report that `readdevice` looks at:
byte 0 (wheel), byte 1 (dial counter), byte 3 (buttons 1-4 in bits 4-7),
byte 4 (button 5 in bit 0). -/
structure Report where
  buf0 : Nat
  buf1 : Nat
  buf3 : Nat
  buf4 : Nat
  deriving DecidableEq, Repr

/-- `readdevice`, wheel block: emit `wheel_pos` iff it differs from the
stored value, updating the store exactly then. -/
def stepWheel (se : DeviceState) (wheel_pos : Int) :
    DeviceState × List ControlEvent :=
  if wheel_pos ≠ se.wheel_value then
    ({ se with wheel_value := wheel_pos }, [.wheelPosition wheel_pos])
  else (se, [])

/-- `readdevice`, dial block: on a changed counter, compute
`int8(dial_pos - dial_value)` (`uint8` subtraction then `int8` cast, i.e.
the signed representative of the difference mod 256), emit it only when it
is ±1, and update the stored counter either way. -/
def stepDial (se : DeviceState) (dial_pos : Int) :
    DeviceState × List ControlEvent :=
  if dial_pos ≠ se.dial_value then
    let dial_delta := int8wrap (dial_pos - se.dial_value)
    -- only use if difference is a single step. Else it's the first read
    if dial_delta = 1 ∨ dial_delta = -1 then
      ({ se with dial_value := dial_pos }, [.dialDirection dial_delta])
    else ({ se with dial_value := dial_pos }, [])
  else (se, [])

/-- `readdevice`, button 1 block. -/
def stepButton1 (se : DeviceState) (b : Bool) :
    DeviceState × List ControlEvent :=
  if b ≠ se.button1_value then
    ({ se with button1_value := b }, [.button1 b])
  else (se, [])

/-- `readdevice`, button 2 block. -/
def stepButton2 (se : DeviceState) (b : Bool) :
    DeviceState × List ControlEvent :=
  if b ≠ se.button2_value then
    ({ se with button2_value := b }, [.button2 b])
  else (se, [])

/-- `readdevice`, button 3 block. -/
def stepButton3 (se : DeviceState) (b : Bool) :
    DeviceState × List ControlEvent :=
  if b ≠ se.button3_value then
    ({ se with button3_value := b }, [.button3 b])
  else (se, [])

/-- `readdevice`, button 4 block. -/
def stepButton4 (se : DeviceState) (b : Bool) :
    DeviceState × List ControlEvent :=
  if b ≠ se.button4_value then
    ({ se with button4_value := b }, [.button4 b])
  else (se, [])

/-- `readdevice`, button 5 block. -/
def stepButton5 (se : DeviceState) (b : Bool) :
    DeviceState × List ControlEvent :=
  if b ≠ se.button5_value then
    ({ se with button5_value := b }, [.button5 b])
  else (se, [])

/-- One loop iteration of `readdevice` on a successfully read report, with
all `ShuttleStatus` channels created (as `readshuttle` does): field
extraction (`int8(buf[0])`, `uint8(buf[1])`, bits 4-7 of `buf[3]`, bit 0 of
`buf[4]`), then the five edge-detection blocks in source order. Returns the
updated `DeviceState` and the channel sends, in order. -/
def processReport (se : DeviceState) (r : Report) :
    DeviceState × List ControlEvent :=
  let wheel_pos := int8wrap r.buf0
  let dial_pos : Int := (r.buf1 : Int) % 256
  let b1_pressed := r.buf3.testBit 4
  let b2_pressed := r.buf3.testBit 5
  let b3_pressed := r.buf3.testBit 6
  let b4_pressed := r.buf3.testBit 7
  let b5_pressed := r.buf4.testBit 0
  let p1 := stepWheel se wheel_pos
  let p2 := stepDial p1.1 dial_pos
  let p3 := stepButton1 p2.1 b1_pressed
  let p4 := stepButton2 p3.1 b2_pressed
  let p5 := stepButton3 p4.1 b3_pressed
  let p6 := stepButton4 p5.1 b4_pressed
  let p7 := stepButton5 p6.1 b5_pressed
  (p7.1, p1.2 ++ p2.2 ++ p3.2 ++ p4.2 ++ p5.2 ++ p6.2 ++ p7.2)

/-- Whether an event is a wheel-position event. -/
def isWheelEvent : ControlEvent → Bool
  | .wheelPosition _ => true
  | _ => false

/-- Whether an event is a dial-step event. -/
def isDialEvent : ControlEvent → Bool
  | .dialDirection _ => true
  | _ => false

/-- The button identifier (1..5) carried by a button event, if any. -/
def buttonIndex : ControlEvent → Option Nat
  | .button1 _ => some 1
  | .button2 _ => some 2
  | .button3 _ => some 3
  | .button4 _ => some 4
  | .button5 _ => some 5
  | _ => none

/-- The wheel-position events of a trace, in order. -/
def wheelEvents (evs : List ControlEvent) : List ControlEvent :=
  evs.filter isWheelEvent

/-- The dial-step events of a trace, in order. -/
def dialEvents (evs : List ControlEvent) : List ControlEvent :=
  evs.filter isDialEvent

/-- The events of button `i` in a trace, in order. -/
def buttonEvents (i : Nat) (evs : List ControlEvent) : List ControlEvent :=
  evs.filter (fun e => buttonIndex e = some i)

/-- The outcome of one `readdevice` loop iteration as observed from
outside: the new decoder state, the events sent, the recorded error
(`se.err`), whether the polling loop continues, and the channel-close
operations performed (the consumer-visible termination signals). -/
structure DecoderOutcome where
  state : DeviceState
  events : List ControlEvent
  err : Option String
  keepPolling : Bool
  channelCloses : List String
  deriving DecidableEq, Repr

/-- Result of one `devhandle.Read` call. -/
inductive ReadResult where
  | ok (r : Report)
  | failure (e : String)
  deriving DecidableEq, Repr

/-- One `readdevice` loop iteration including the read itself: on a read
error, record it in `se.err` and return from the goroutine (the code
performs no channel close and no send on this path); otherwise decode the
report. -/
def readdeviceStep (se : DeviceState) (r : ReadResult) : DecoderOutcome :=
  match r with
  | .failure e => ⟨se, [], some e, false, []⟩
  | .ok rep =>
      let p := processReport se rep
      ⟨p.1, p.2, none, true, []⟩

/-- Whether a decoder outcome signals termination to the consumer: some
consumer-visible operation (a channel close, or a message the consumer can
interpret as termination) happens. `readdevice`'s only consumer-visible
operations are its channel sends and closes. -/
def signalsTermination (o : DecoderOutcome) : Prop :=
  o.channelCloses ≠ [] ∨ o.events ≠ []

instance (o : DecoderOutcome) : Decidable (signalsTermination o) := by
  unfold signalsTermination; infer_instance

/-- `midiMaxRepeat` (midicontroller.go): maximum number a message is
repeated. -/
def midiMaxRepeat : Nat := 50

/-- `tickstruct` (local to `commandExecutor`): per-channel repeat state. -/
structure tickstruct where
  counter : Nat
  value : Nat
  deriving DecidableEq, Repr

/-- The `repeatcmd` map, as an association list from controller id to
`tickstruct` (Go map semantics: one binding per key; `repeatInsert` and
`repeatDelete` maintain that). -/
abbrev RepeatMap : Type := List (Nat × tickstruct)

/-- `repeatcmd[k] = v`. -/
def repeatInsert (m : RepeatMap) (k : Nat) (v : tickstruct) : RepeatMap :=
  (k, v) :: m.filter (fun p => p.1 ≠ k)

/-- `delete(repeatcmd, k)`. -/
def repeatDelete (m : RepeatMap) (k : Nat) : RepeatMap :=
  m.filter (fun p => p.1 ≠ k)

/-- Lookup in `repeatcmd` (first binding wins; insert and delete keep at
most one binding per key). -/
def repeatLookup (m : RepeatMap) (k : Nat) : Option tickstruct :=
  match m with
  | [] => none
  | (k', v) :: rest => if k' = k then some v else repeatLookup rest k

/-- `len(repeatcmd) == 0`. -/
def repeatEmpty (m : RepeatMap) : Bool :=
  match m with
  | [] => true
  | _ :: _ => false

/-- The tick body of `commandExecutor`, new map: every entry with
`counter > 1` is kept with the counter decremented; every other entry is
deleted. -/
def tickMap (m : RepeatMap) : RepeatMap :=
  m.filterMap (fun p =>
    if p.2.counter > 1 then some (p.1, ⟨p.2.counter - 1, p.2.value⟩)
    else none)

/-- The tick body of `commandExecutor`, writes performed: one
`ControlChange(k, value)` per entry with `counter > 1`. -/
def tickWrites (m : RepeatMap) : List (Nat × Nat) :=
  m.filterMap (fun p =>
    if p.2.counter > 1 then some (p.1, p.2.value) else none)

/-- Dispatcher state owned by the `commandExecutor` goroutine: the
`repeatcmd` table and whether the `tick` ticker is running (`Reset` sets it
running, `Stop` stops it; it starts stopped). -/
structure ExecState where
  repeatcmd : RepeatMap
  tickerOn : Bool

/-- The two event sources of the `commandExecutor` select loop other than
shutdown: a command arriving on `commandch`, and a ticker tick. -/
inductive ExecEvent where
  | command (cmd : midiControllerCommand)
  | tick

/-- One iteration of the `commandExecutor` select loop. Returns the new
state and the `writer.ControlChange` calls performed, in order.
On a command: write it immediately; if `repeat`, insert a fresh
`tickstruct{midiMaxRepeat, value}` for its controller and start the ticker;
otherwise delete the controller's entry and stop the ticker if the table
is now empty. On a tick: rewrite-and-decrement every entry with
`counter > 1`, drop the rest, and stop the ticker if the table is empty. -/
def execStep (s : ExecState) (e : ExecEvent) :
    ExecState × List (Nat × Nat) :=
  match e with
  | .command cmd =>
      if cmd.rep then
        ({ repeatcmd := repeatInsert s.repeatcmd cmd.controller
             ⟨midiMaxRepeat, cmd.value⟩,
           tickerOn := true }, [(cmd.controller, cmd.value)])
      else
        let m := repeatDelete s.repeatcmd cmd.controller
        ({ repeatcmd := m,
           tickerOn := if repeatEmpty m then false else s.tickerOn },
         [(cmd.controller, cmd.value)])
  | .tick =>
      let m := tickMap s.repeatcmd
      ({ repeatcmd := m,
         tickerOn := if repeatEmpty m then false else s.tickerOn },
       tickWrites s.repeatcmd)

/-- A run of the `commandExecutor` loop over a list of events: final state
and all writes, in order. -/
def execRun (s : ExecState) (evs : List ExecEvent) :
    ExecState × List (Nat × Nat) :=
  match evs with
  | [] => (s, [])
  | e :: rest =>
      let p := execStep s e
      let q := execRun p.1 rest
      (q.1, p.2 ++ q.2)

/-- Number of writes addressed to controller `c` in a write trace. -/
def writesFor (c : Nat) (ws : List (Nat × Nat)) : Nat :=
  (ws.filter (fun w => w.1 = c)).length

/-- Whether an executor event is a command addressed to controller `c`. -/
def eventForChannel (c : Nat) (e : ExecEvent) : Prop :=
  match e with
  | .command cmd => cmd.controller = c
  | .tick => False

instance (c : Nat) : (e : ExecEvent) → Decidable (eventForChannel c e)
  | .command cmd => inferInstanceAs (Decidable (cmd.controller = c))
  | .tick => inferInstanceAs (Decidable False)

/-- The remaining repeat budget the table still holds for controller `c`:
the sum over `c`'s entries of `counter - 1` (the number of future tick
writes an entry can still cause). -/
def repeatPotential (c : Nat) (m : RepeatMap) : Nat :=
  match m with
  | [] => 0
  | (k, v) :: rest =>
      (if k = c then v.counter - 1 else 0) + repeatPotential c rest

/-- `strings.Contains(s, pat)`. -/
def strContains (s pat : String) : Bool :=
  (List.range (s.length + 1)).any
    (fun i => pat.toList.isPrefixOf (s.toList.drop i))

/-- The errors of midicontroller.go. -/
inductive MidiErr where
  | deviceNotFound
  | deviceNotInitialized
  deriving DecidableEq, Repr

/-- The fields of `midiControl` that the lifecycle operations inspect,
with Go nil-ness made explicit: `drv`, `wr`, `commandch`, `quitch` record
whether the corresponding field is non-nil; `output` holds the selected
port name when non-nil. -/
structure midiControl where
  DeviceName : String
  drv : Bool
  output : Option String
  wr : Bool
  commandch : Bool
  quitch : Bool
  deriving DecidableEq, Repr

/-- `NewMIDIController(nil, devicename, delay, channel)`: only the driver
and name are set; `output`, `wr`, `commandch`, `quitch` all start nil. -/
def NewMIDIControllerModel (devicename : String) : midiControl :=
  { DeviceName := devicename, drv := false, output := none,
    wr := false, commandch := false, quitch := false }

/-- The port-scanning loop of `Open`: the last listed out whose name
contains `DeviceName` is selected; if none matches, `output` keeps its
prior value. -/
def scanOuts (outs : List String) (name : String) (old : Option String) :
    Option String :=
  outs.foldl (fun acc v => if strContains v name then some v else acc) old

/-- The results of the external calls `Open` performs, as inputs to the
model: whether `rtmididrv.New()` returns an error, the port list produced
by `drv.Outs()` (its error is only logged; an error means no ports), and
the error returned by `mc.output.Open()`. -/
structure OpenEnv where
  newDriverFails : Bool
  outs : List String
  outOpenErr : Option String
  deriving DecidableEq, Repr

/-- How an `Open` call ends: a Go runtime panic, or a normal return with
the updated receiver and the returned error value. -/
inductive OpenResult where
  | panic (msg : String)
  | ret (mc : midiControl) (err : Option MidiErr)
  deriving DecidableEq, Repr

/-- `Open` (midicontroller.go): if `drv` is nil, call `rtmididrv.New()`,
logging its error only — a failed `New` leaves `drv` nil and the next
`mc.drv.Outs()` call dereferences it (panic). Then scan the outs for
`DeviceName`; if no output was selected return `ErrMIDIDeviceNotFound`
without touching `wr`, `commandch` or `quitch`. Otherwise call
`mc.output.Open()`, whose error (`env.outOpenErr`) is only logged and
otherwise ignored: the writer, the command mailbox and the quit channel
are created, the executor goroutine is started, and `Open` returns nil
regardless of that error. -/
def OpenModel (env : OpenEnv) (mc : midiControl) : OpenResult :=
  if mc.drv = false ∧ env.newDriverFails = true then
    .panic "nil pointer dereference in drv.Outs"
  else
    match scanOuts env.outs mc.DeviceName mc.output with
    | none =>
        .ret { mc with drv := true, output := none } (some .deviceNotFound)
    | some port =>
        .ret { mc with drv := true, output := some port,
                       wr := true, commandch := true, quitch := true } none

/-- `SendCommand`: refuse with `ErrMIDIDeviceNotInitialized` when `output`
is nil, enqueueing nothing; otherwise enqueue exactly one command into
`commandch` and return nil. The returned list is what is enqueued. -/
def SendCommandModel (mc : midiControl) (controller value : Nat)
    (rep : Bool) : Option MidiErr × List midiControllerCommand :=
  if mc.output = none then (some .deviceNotInitialized, [])
  else (none, [⟨controller, value, rep⟩])

/-- `Close`: `close(mc.quitch)` panics on a nil channel; then
`mc.output.Close()` and `mc.drv.Close()` each panic when the interface is
nil. A `.error` value is a Go runtime panic; `.ok` is a normal return. -/
def CloseModel (mc : midiControl) : Except String Unit :=
  if mc.quitch = false then .error "close of nil channel"
  else if mc.output = none then .error "nil pointer dereference in output.Close"
  else if mc.drv = false then .error "nil pointer dereference in drv.Close"
  else .ok ()

/-- The externally visible operations `startListeners` (main.go) performs,
in order. -/
inductive SessionAction where
  | closeQuitch
  | closeController
  | openSink
  | reportError
  | startConsumer
  deriving DecidableEq, Repr

/-- `startListeners(midiname, se)`: if a previous session is active
(`quitch != nil`), close its quit channel and close the previous
controller; then make a fresh quit channel, build a new controller and
call `Open`. When `Open` returns an error, show the error dialog and
start nothing; when it returns nil, start the `readshuttle` consumer
goroutine. A `.error` value is a panic escaping `Open` (the previous
session was already torn down at that point). `.ok` gives the action
trace, in source order, and whether a new consumer goroutine is running. -/
def startListeners (env : OpenEnv) (midiname : String)
    (prevActive : Bool) : Except String (List SessionAction × Bool) :=
  let pre := if prevActive then
      [SessionAction.closeQuitch, SessionAction.closeController] else []
  match OpenModel env (NewMIDIControllerModel midiname) with
  | .panic msg => .error msg
  | .ret _ (some _) =>
      .ok (pre ++ [SessionAction.openSink, SessionAction.reportError], false)
  | .ret _ none =>
      .ok (pre ++ [SessionAction.openSink, SessionAction.startConsumer], true)

/-- The `DeviceState` at the start of `readdevice` (Go zero values). -/
def initialDeviceState : DeviceState :=
  ⟨0, 0, false, false, false, false, false⟩

end ShuttleMidi

namespace ShuttleMidi

/-- The wheel block always leaves the store holding the new wheel value
(an unchanged field already holds it), and emits under the code's
condition. -/
lemma stepWheel_eq (se : DeviceState) (wp : Int) :
    stepWheel se wp =
      ({ se with wheel_value := wp },
       if wp ≠ se.wheel_value then [ControlEvent.wheelPosition wp] else []) := by
  unfold stepWheel
  split_ifs with h
  · rfl
  · rw [not_not] at h
    subst h
    rfl

/-- The dial block always leaves the store holding the new counter value
and emits under the code's conditions. -/
lemma stepDial_eq (se : DeviceState) (dp : Int) :
    stepDial se dp =
      ({ se with dial_value := dp },
       if dp ≠ se.dial_value then
         (if int8wrap (dp - se.dial_value) = 1 ∨
             int8wrap (dp - se.dial_value) = -1
          then [ControlEvent.dialDirection (int8wrap (dp - se.dial_value))]
          else [])
       else []) := by
  unfold stepDial
  split_ifs with h h2
  · simp only [h2, if_true]
  · simp only [h2, if_false]
  · rw [not_not] at h
    subst h
    rfl

/-- Button 1 block, closed form. -/
lemma stepButton1_eq (se : DeviceState) (b : Bool) :
    stepButton1 se b =
      ({ se with button1_value := b },
       if b ≠ se.button1_value then [ControlEvent.button1 b] else []) := by
  unfold stepButton1
  split_ifs with h
  · rfl
  · rw [not_not] at h
    subst h
    rfl

/-- Button 2 block, closed form. -/
lemma stepButton2_eq (se : DeviceState) (b : Bool) :
    stepButton2 se b =
      ({ se with button2_value := b },
       if b ≠ se.button2_value then [ControlEvent.button2 b] else []) := by
  unfold stepButton2
  split_ifs with h
  · rfl
  · rw [not_not] at h
    subst h
    rfl

/-- Button 3 block, closed form. -/
lemma stepButton3_eq (se : DeviceState) (b : Bool) :
    stepButton3 se b =
      ({ se with button3_value := b },
       if b ≠ se.button3_value then [ControlEvent.button3 b] else []) := by
  unfold stepButton3
  split_ifs with h
  · rfl
  · rw [not_not] at h
    subst h
    rfl

/-- Button 4 block, closed form. -/
lemma stepButton4_eq (se : DeviceState) (b : Bool) :
    stepButton4 se b =
      ({ se with button4_value := b },
       if b ≠ se.button4_value then [ControlEvent.button4 b] else []) := by
  unfold stepButton4
  split_ifs with h
  · rfl
  · rw [not_not] at h
    subst h
    rfl

/-- Button 5 block, closed form. -/
lemma stepButton5_eq (se : DeviceState) (b : Bool) :
    stepButton5 se b =
      ({ se with button5_value := b },
       if b ≠ se.button5_value then [ControlEvent.button5 b] else []) := by
  unfold stepButton5
  split_ifs with h
  · rfl
  · rw [not_not] at h
    subst h
    rfl

/-- Closed form of one decoder iteration: the stored state always ends up
holding the freshly decoded field values (an unchanged field is overwritten
with the value it already had, or left alone, which is the same thing), and
each field contributes its event exactly under its source-code condition. -/
lemma processReport_eq (se : DeviceState) (r : Report) :
    processReport se r =
      ({ wheel_value := int8wrap r.buf0,
         dial_value := (r.buf1 : Int) % 256,
         button1_value := r.buf3.testBit 4,
         button2_value := r.buf3.testBit 5,
         button3_value := r.buf3.testBit 6,
         button4_value := r.buf3.testBit 7,
         button5_value := r.buf4.testBit 0 },
       (if int8wrap r.buf0 ≠ se.wheel_value
          then [ControlEvent.wheelPosition (int8wrap r.buf0)] else []) ++
       (if (r.buf1 : Int) % 256 ≠ se.dial_value
          then
            (if int8wrap ((r.buf1 : Int) % 256 - se.dial_value) = 1 ∨
                int8wrap ((r.buf1 : Int) % 256 - se.dial_value) = -1
             then [ControlEvent.dialDirection
                     (int8wrap ((r.buf1 : Int) % 256 - se.dial_value))]
             else [])
          else []) ++
       (if r.buf3.testBit 4 ≠ se.button1_value
          then [ControlEvent.button1 (r.buf3.testBit 4)] else []) ++
       (if r.buf3.testBit 5 ≠ se.button2_value
          then [ControlEvent.button2 (r.buf3.testBit 5)] else []) ++
       (if r.buf3.testBit 6 ≠ se.button3_value
          then [ControlEvent.button3 (r.buf3.testBit 6)] else []) ++
       (if r.buf3.testBit 7 ≠ se.button4_value
          then [ControlEvent.button4 (r.buf3.testBit 7)] else []) ++
       (if r.buf4.testBit 0 ≠ se.button5_value
          then [ControlEvent.button5 (r.buf4.testBit 0)] else [])) := by
  simp only [processReport, stepWheel_eq, stepDial_eq, stepButton1_eq,
    stepButton2_eq, stepButton3_eq, stepButton4_eq, stepButton5_eq]

/-- State component of `processReport_eq`. -/
lemma processReport_state (se : DeviceState) (r : Report) :
    (processReport se r).1 =
      { wheel_value := int8wrap r.buf0,
        dial_value := (r.buf1 : Int) % 256,
        button1_value := r.buf3.testBit 4,
        button2_value := r.buf3.testBit 5,
        button3_value := r.buf3.testBit 6,
        button4_value := r.buf3.testBit 7,
        button5_value := r.buf4.testBit 0 } := by
  rw [processReport_eq]

/-- Event component of `processReport_eq`. -/
lemma processReport_events (se : DeviceState) (r : Report) :
    (processReport se r).2 =
      (if int8wrap r.buf0 ≠ se.wheel_value
        then [ControlEvent.wheelPosition (int8wrap r.buf0)] else []) ++
      (if (r.buf1 : Int) % 256 ≠ se.dial_value
        then
          (if int8wrap ((r.buf1 : Int) % 256 - se.dial_value) = 1 ∨
              int8wrap ((r.buf1 : Int) % 256 - se.dial_value) = -1
           then [ControlEvent.dialDirection
                   (int8wrap ((r.buf1 : Int) % 256 - se.dial_value))]
           else [])
        else []) ++
      (if r.buf3.testBit 4 ≠ se.button1_value
        then [ControlEvent.button1 (r.buf3.testBit 4)] else []) ++
      (if r.buf3.testBit 5 ≠ se.button2_value
        then [ControlEvent.button2 (r.buf3.testBit 5)] else []) ++
      (if r.buf3.testBit 6 ≠ se.button3_value
        then [ControlEvent.button3 (r.buf3.testBit 6)] else []) ++
      (if r.buf3.testBit 7 ≠ se.button4_value
        then [ControlEvent.button4 (r.buf3.testBit 7)] else []) ++
      (if r.buf4.testBit 0 ≠ se.button5_value
        then [ControlEvent.button5 (r.buf4.testBit 0)] else []) := by
  rw [processReport_eq]

/-- `filter` commutes with a conditional. -/
lemma filter_ite (p : ControlEvent → Bool) (c : Prop) [Decidable c]
    (a b : List ControlEvent) :
    (if c then a else b).filter p =
      if c then a.filter p else b.filter p := by
  split <;> rfl

/-- C5: for every decoded report, a WheelPosition event is emitted iff the
report's wheel byte (as `int8`) differs from the stored wheel value in
`DeviceState`, and the stored wheel value is updated (to the report's
value) exactly when an event is emitted. -/
theorem C5_wheel_edge_detection (se : DeviceState) (r : Report) :
    wheelEvents (processReport se r).2 =
      (if int8wrap r.buf0 ≠ se.wheel_value
        then [ControlEvent.wheelPosition (int8wrap r.buf0)] else []) ∧
    (processReport se r).1.wheel_value =
      (if int8wrap r.buf0 ≠ se.wheel_value
        then int8wrap r.buf0 else se.wheel_value) := by
  constructor
  · rw [processReport_events]
    simp only [wheelEvents, List.filter_append, filter_ite]
    simp [isWheelEvent]
  · rw [processReport_state]
    split_ifs with h
    · rfl
    · rw [not_not] at h
      exact h

/-- C6: for every decoded report, every observed difference between a
button bit (buttons 1-5) or the wheel byte and its stored value emits the
corresponding event; no observed button or wheel change is silently
absorbed. -/
theorem C6_button_wheel_changes_always_emit (se : DeviceState) (r : Report) :
    wheelEvents (processReport se r).2 =
      (if int8wrap r.buf0 ≠ se.wheel_value
        then [ControlEvent.wheelPosition (int8wrap r.buf0)] else []) ∧
    buttonEvents 1 (processReport se r).2 =
      (if r.buf3.testBit 4 ≠ se.button1_value
        then [ControlEvent.button1 (r.buf3.testBit 4)] else []) ∧
    buttonEvents 2 (processReport se r).2 =
      (if r.buf3.testBit 5 ≠ se.button2_value
        then [ControlEvent.button2 (r.buf3.testBit 5)] else []) ∧
    buttonEvents 3 (processReport se r).2 =
      (if r.buf3.testBit 6 ≠ se.button3_value
        then [ControlEvent.button3 (r.buf3.testBit 6)] else []) ∧
    buttonEvents 4 (processReport se r).2 =
      (if r.buf3.testBit 7 ≠ se.button4_value
        then [ControlEvent.button4 (r.buf3.testBit 7)] else []) ∧
    buttonEvents 5 (processReport se r).2 =
      (if r.buf4.testBit 0 ≠ se.button5_value
        then [ControlEvent.button5 (r.buf4.testBit 0)] else []) := by
  rw [processReport_events]
  refine ⟨?_, ?_, ?_, ?_, ?_, ?_⟩ <;>
    · simp only [wheelEvents, buttonEvents, List.filter_append, filter_ite]
      simp [isWheelEvent, buttonIndex]

/-- C3: a rotary-counter change whose signed delta (new minus old mod 256,
interpreted as a signed byte) has magnitude other than 1 emits no DialStep
event while the stored baseline still becomes the new counter value; and
two consecutive reports whose counters differ by exactly +1 mod 256 make
the second report emit exactly one DialStep(+1). -/
theorem C3_dial_delta_single_step (se : DeviceState) (r : Report)
    (h0 : 0 ≤ se.dial_value) (h1 : se.dial_value < 256) :
    ((int8wrap ((r.buf1 : Int) % 256 - se.dial_value) ≠ 1 ∧
      int8wrap ((r.buf1 : Int) % 256 - se.dial_value) ≠ -1) →
      dialEvents (processReport se r).2 = [] ∧
      (processReport se r).1.dial_value = (r.buf1 : Int) % 256) ∧
    (∀ r2 : Report,
      ((r2.buf1 : Int) - (r.buf1 : Int)) % 256 = 1 →
      dialEvents (processReport (processReport se r).1 r2).2 =
        [ControlEvent.dialDirection 1]) := by
  constructor
  · rintro ⟨hd1, hd2⟩
    constructor
    · rw [processReport_events]
      simp only [dialEvents, List.filter_append, filter_ite]
      simp [isDialEvent, hd1, hd2]
    · rw [processReport_state]
  · intro r2 hdiff
    have hδ : int8wrap ((r2.buf1 : Int) % 256 - (r.buf1 : Int) % 256) = 1 := by
      unfold int8wrap
      omega
    have hne : (r2.buf1 : Int) % 256 ≠ (r.buf1 : Int) % 256 := by
      intro he
      rw [he] at hδ
      unfold int8wrap at hδ
      omega
    rw [processReport_events, processReport_state]
    simp only [dialEvents, List.filter_append, filter_ite]
    simp [isDialEvent, hδ, hne]

lemma writesFor_append (c : Nat) (a b : List (Nat × Nat)) :
    writesFor c (a ++ b) = writesFor c a + writesFor c b := by
  simp [writesFor, List.filter_append]

lemma writesFor_cons (c k x : Nat) (ws : List (Nat × Nat)) :
    writesFor c ((k, x) :: ws) =
      (if k = c then 1 else 0) + writesFor c ws := by
  by_cases h : k = c <;> simp [writesFor, List.filter_cons, h, Nat.add_comm]

lemma repeatPotential_cons (c k : Nat) (v : tickstruct) (m : RepeatMap) :
    repeatPotential c ((k, v) :: m) =
      (if k = c then v.counter - 1 else 0) + repeatPotential c m := rfl

lemma repeatPotential_delete_self (c : Nat) (m : RepeatMap) :
    repeatPotential c (repeatDelete m c) = 0 := by
  induction m with
  | nil => rfl
  | cons p m ih =>
    obtain ⟨k, v⟩ := p
    by_cases h : k = c
    · simpa [repeatDelete, List.filter_cons, h] using ih
    · simpa [repeatDelete, List.filter_cons, h, repeatPotential_cons] using ih

lemma repeatPotential_delete_ne {c k : Nat} (h : k ≠ c) (m : RepeatMap) :
    repeatPotential c (repeatDelete m k) = repeatPotential c m := by
  induction m with
  | nil => rfl
  | cons p m ih =>
    obtain ⟨k', v⟩ := p
    by_cases h' : k' = k
    · subst h'
      simp only [repeatDelete, List.filter_cons, ne_eq, decide_not] at ih ⊢
      simp [repeatPotential_cons, h, ih]
    · simp only [repeatDelete, List.filter_cons, ne_eq, decide_not] at ih ⊢
      simp [repeatPotential_cons, h', ih]

lemma repeatPotential_insert_self (c : Nat) (v : tickstruct) (m : RepeatMap) :
    repeatPotential c (repeatInsert m c v) = v.counter - 1 := by
  have h : repeatPotential c (repeatDelete m c) = 0 :=
    repeatPotential_delete_self c m
  simp [repeatInsert, repeatPotential_cons, repeatDelete] at h ⊢
  simp [h]

lemma repeatPotential_insert_ne {c k : Nat} (h : k ≠ c) (v : tickstruct)
    (m : RepeatMap) :
    repeatPotential c (repeatInsert m k v) = repeatPotential c m := by
  have hd : repeatPotential c (repeatDelete m k) = repeatPotential c m :=
    repeatPotential_delete_ne h m
  simp [repeatInsert, repeatPotential_cons, h, repeatDelete] at hd ⊢
  simp [hd]

lemma tick_bound (c : Nat) (m : RepeatMap) :
    writesFor c (tickWrites m) + repeatPotential c (tickMap m) ≤
      repeatPotential c m := by
  induction m with
  | nil => simp [tickWrites, tickMap, repeatPotential, writesFor]
  | cons p m ih =>
    obtain ⟨k, v⟩ := p
    by_cases hk : v.counter > 1
    · have hw : tickWrites ((k, v) :: m) = (k, v.value) :: tickWrites m := by
        simp [tickWrites, List.filterMap_cons, hk]
      have hm : tickMap ((k, v) :: m) =
          (k, ⟨v.counter - 1, v.value⟩) :: tickMap m := by
        simp [tickMap, List.filterMap_cons, hk]
      rw [hw, hm, writesFor_cons, repeatPotential_cons, repeatPotential_cons]
      by_cases hc : k = c <;> simp [hc] <;> omega
    · have hw : tickWrites ((k, v) :: m) = tickWrites m := by
        simp [tickWrites, List.filterMap_cons, hk]
      have hm : tickMap ((k, v) :: m) = tickMap m := by
        simp [tickMap, List.filterMap_cons, hk]
      rw [hw, hm, repeatPotential_cons]
      omega

lemma execStep_bound (s : ExecState) (e : ExecEvent) (c : Nat)
    (h : ¬ eventForChannel c e) :
    writesFor c (execStep s e).2 +
      repeatPotential c (execStep s e).1.repeatcmd ≤
      repeatPotential c s.repeatcmd := by
  cases e with
  | tick => simpa [execStep] using tick_bound c s.repeatcmd
  | command cmd =>
    have hcc : cmd.controller ≠ c := by simpa [eventForChannel] using h
    by_cases hr : cmd.rep
    · simp [execStep, hr, writesFor_cons, hcc, writesFor,
        repeatPotential_insert_ne hcc]
    · simp [execStep, hr, writesFor_cons, hcc, writesFor,
        repeatPotential_delete_ne hcc]

lemma execRun_bound (evs : List ExecEvent) :
    ∀ (s : ExecState) (c : Nat),
      (∀ e ∈ evs, ¬ eventForChannel c e) →
      writesFor c (execRun s evs).2 ≤ repeatPotential c s.repeatcmd := by
  induction evs with
  | nil => intro s c _; simp [execRun, writesFor]
  | cons e rest ih =>
    intro s c h
    simp only [execRun, writesFor_append]
    have h1 := execStep_bound s e c (h e (by simp))
    have h2 := ih (execStep s e).1 c (fun e' he' => h e' (by simp [he']))
    omega

lemma repeatLookup_absent (k : Nat) (m : RepeatMap)
    (h : k ∉ m.map Prod.fst) :
    repeatLookup (tickMap m) k = none ∧ writesFor k (tickWrites m) = 0 := by
  induction m with
  | nil => exact ⟨rfl, rfl⟩
  | cons p m ih =>
    obtain ⟨k', v⟩ := p
    have hk' : k' ≠ k := by
      intro he
      exact h (by simp [he])
    have ht := ih (fun hm => h (by simp [hm]))
    by_cases hc : v.counter > 1
    · have hw : tickWrites ((k', v) :: m) = (k', v.value) :: tickWrites m := by
        simp [tickWrites, List.filterMap_cons, hc]
      have hm : tickMap ((k', v) :: m) =
          (k', ⟨v.counter - 1, v.value⟩) :: tickMap m := by
        simp [tickMap, List.filterMap_cons, hc]
      rw [hw, hm, writesFor_cons]
      simp [repeatLookup, hk', ht.1, ht.2]
    · have hw : tickWrites ((k', v) :: m) = tickWrites m := by
        simp [tickWrites, List.filterMap_cons, hc]
      have hm : tickMap ((k', v) :: m) = tickMap m := by
        simp [tickMap, List.filterMap_cons, hc]
      rw [hw, hm]
      exact ht

lemma tick_mechanics (m : RepeatMap) (k : Nat) (ts : tickstruct)
    (hnd : (m.map Prod.fst).Nodup) (hl : repeatLookup m k = some ts) :
    (1 < ts.counter →
      repeatLookup (tickMap m) k = some ⟨ts.counter - 1, ts.value⟩ ∧
      writesFor k (tickWrites m) = 1) ∧
    (ts.counter ≤ 1 →
      repeatLookup (tickMap m) k = none ∧
      writesFor k (tickWrites m) = 0) := by
  induction m with
  | nil => cases hl
  | cons p m ih =>
    obtain ⟨k', v⟩ := p
    rw [List.map_cons, List.nodup_cons] at hnd
    by_cases hk : k' = k
    · subst hk
      have hv : v = ts := by
        simpa [repeatLookup] using hl
      subst hv
      have habs := repeatLookup_absent k' m hnd.1
      constructor
      · intro hgt
        have hw : tickWrites ((k', v) :: m) = (k', v.value) :: tickWrites m := by
          simp [tickWrites, List.filterMap_cons, hgt]
        have hm : tickMap ((k', v) :: m) =
            (k', ⟨v.counter - 1, v.value⟩) :: tickMap m := by
          simp [tickMap, List.filterMap_cons, hgt]
        rw [hw, hm, writesFor_cons]
        simp [repeatLookup, habs.1, habs.2]
      · intro hle
        have hc : ¬ v.counter > 1 := by omega
        have hw : tickWrites ((k', v) :: m) = tickWrites m := by
          simp [tickWrites, List.filterMap_cons, hc]
        have hm : tickMap ((k', v) :: m) = tickMap m := by
          simp [tickMap, List.filterMap_cons, hc]
        rw [hw, hm]
        exact habs
    · have hl' : repeatLookup m k = some ts := by
        simpa [repeatLookup, hk] using hl
      have ht := ih hnd.2 hl'
      by_cases hc : v.counter > 1
      · have hw : tickWrites ((k', v) :: m) = (k', v.value) :: tickWrites m := by
          simp [tickWrites, List.filterMap_cons, hc]
        have hm : tickMap ((k', v) :: m) =
            (k', ⟨v.counter - 1, v.value⟩) :: tickMap m := by
          simp [tickMap, List.filterMap_cons, hc]
        rw [hw, hm]
        constructor
        · intro hgt
          have := ht.1 hgt
          rw [writesFor_cons]
          simp [repeatLookup, hk, this.1, this.2]
        · intro hle
          have := ht.2 hle
          rw [writesFor_cons]
          simp [repeatLookup, hk, this.1, this.2]
      · have hw : tickWrites ((k', v) :: m) = tickWrites m := by
          simp [tickWrites, List.filterMap_cons, hc]
        have hm : tickMap ((k', v) :: m) = tickMap m := by
          simp [tickMap, List.filterMap_cons, hc]
        rw [hw, hm]
        exact ht

lemma repeatLookup_delete_self (k : Nat) (m : RepeatMap) :
    repeatLookup (repeatDelete m k) k = none := by
  induction m with
  | nil => rfl
  | cons p m ih =>
    obtain ⟨k', v⟩ := p
    by_cases h : k' = k
    · simpa [repeatDelete, List.filter_cons, h] using ih
    · simp only [repeatDelete, List.filter_cons, ne_eq, decide_not] at ih ⊢
      simp [repeatLookup, h, ih]

/-- Witness for C3: from the initial state, a first read with counter 5
(delta 5, first-read noise) emits nothing but sets the baseline, while two
consecutive reads with counters 7 then 8 emit exactly one DialStep(+1). -/
theorem C3_dial_delta_single_step_witness :
    dialEvents (processReport initialDeviceState ⟨0, 5, 0, 0⟩).2 = [] ∧
    (processReport initialDeviceState ⟨0, 5, 0, 0⟩).1.dial_value = 5 ∧
    dialEvents (processReport
      (processReport initialDeviceState ⟨0, 7, 0, 0⟩).1 ⟨0, 8, 0, 0⟩).2 =
      [ControlEvent.dialDirection 1] := by
  have hA := (C3_dial_delta_single_step initialDeviceState ⟨0, 5, 0, 0⟩
    (by decide) (by decide)).1 (by decide)
  have hB := (C3_dial_delta_single_step initialDeviceState ⟨0, 7, 0, 0⟩
    (by decide) (by decide)).2 ⟨0, 8, 0, 0⟩ (by decide)
  refine ⟨hA.1, ?_, hB⟩
  rw [hA.2]
  decide

/-- C7, counterexample: on a concrete read failure the decoder does record
the error and stop polling, but it performs no consumer-visible
termination signal — no channel close and no event send — refuting the
claim that it signals termination to its consumer. -/
theorem C7_counterexample :
    (readdeviceStep initialDeviceState (.failure "hid read error")).err =
      some "hid read error" ∧
    (readdeviceStep initialDeviceState
        (.failure "hid read error")).keepPolling = false ∧
    ¬ signalsTermination
        (readdeviceStep initialDeviceState (.failure "hid read error")) := by
  refine ⟨rfl, rfl, ?_⟩
  decide

/-- C7, amended: on any device read failure, the decoder records the error
(in the device's `err` field, which no consumer reads) and stops polling,
but it does not signal termination to its consumer: it closes no channel
and sends no event. -/
theorem C7_amended_read_failure (se : DeviceState) (e : String) :
    (readdeviceStep se (.failure e)).err = some e ∧
    (readdeviceStep se (.failure e)).keepPolling = false ∧
    ¬ signalsTermination (readdeviceStep se (.failure e)) := by
  refine ⟨rfl, rfl, ?_⟩
  simp [signalsTermination, readdeviceStep]

/-- C2: a sustain command is written once immediately and installs a
`RepeatEntry` with budget `midiMaxRepeat`; over any following events that
contain no command for its channel, at most `midiMaxRepeat - 1 = 49`
further writes for that channel occur, so the command is written at most
50 times in total. Moreover, on a tick, an entry with counter above 1 is
rewritten exactly once with its counter decremented, and an entry with
counter at most 1 is removed without being rewritten. -/
theorem C2_sustain_repeat_budget (s : ExecState)
    (cmd : midiControllerCommand) (evs : List ExecEvent)
    (hrep : cmd.rep = true)
    (hno : ∀ e ∈ evs, ¬ eventForChannel cmd.controller e) :
    writesFor cmd.controller (execStep s (.command cmd)).2 = 1 ∧
    repeatLookup (execStep s (.command cmd)).1.repeatcmd cmd.controller =
      some ⟨midiMaxRepeat, cmd.value⟩ ∧
    writesFor cmd.controller
      (execRun (execStep s (.command cmd)).1 evs).2 ≤ midiMaxRepeat - 1 ∧
    (∀ (m : RepeatMap) (k : Nat) (ts : tickstruct),
      (m.map Prod.fst).Nodup →
      repeatLookup m k = some ts →
      (1 < ts.counter →
        repeatLookup (tickMap m) k = some ⟨ts.counter - 1, ts.value⟩ ∧
        writesFor k (tickWrites m) = 1) ∧
      (ts.counter ≤ 1 →
        repeatLookup (tickMap m) k = none ∧
        writesFor k (tickWrites m) = 0)) := by
  refine ⟨?_, ?_, ?_, fun m k ts hnd hl => tick_mechanics m k ts hnd hl⟩
  · simp [execStep, hrep, writesFor_cons, writesFor]
  · simp [execStep, hrep, repeatInsert, repeatLookup]
  · have hb := execRun_bound evs (execStep s (.command cmd)).1 cmd.controller hno
    have hp : repeatPotential cmd.controller
        (execStep s (.command cmd)).1.repeatcmd = midiMaxRepeat - 1 := by
      simp [execStep, hrep]
      exact repeatPotential_insert_self cmd.controller _ s.repeatcmd
    omega

/-- Witness for C2 at a concrete state, command and event sequence. -/
theorem C2_sustain_repeat_budget_witness :
    writesFor 0 (execStep ⟨[], false⟩ (.command ⟨0, 90, true⟩)).2 = 1 ∧
    writesFor 0 (execRun (execStep ⟨[], false⟩ (.command ⟨0, 90, true⟩)).1
      [.tick, .tick, .tick]).2 ≤ midiMaxRepeat - 1 := by
  have h := C2_sustain_repeat_budget ⟨[], false⟩ ⟨0, 90, true⟩
    [.tick, .tick, .tick] rfl (by decide)
  exact ⟨h.1, h.2.2.1⟩

/-- C4: a non-sustain command for a channel immediately removes that
channel's `RepeatEntry`, after which no write for that channel occurs over
any following events that contain no command for it; and any step that
leaves the repeat table empty also leaves the ticker stopped. -/
theorem C4_nonsustain_cancels_repeat (s : ExecState)
    (cmd : midiControllerCommand) (hrep : cmd.rep = false) :
    repeatLookup (execStep s (.command cmd)).1.repeatcmd cmd.controller =
      none ∧
    (∀ evs : List ExecEvent,
      (∀ e ∈ evs, ¬ eventForChannel cmd.controller e) →
      writesFor cmd.controller
        (execRun (execStep s (.command cmd)).1 evs).2 = 0) ∧
    (∀ (t : ExecState) (e : ExecEvent),
      repeatEmpty (execStep t e).1.repeatcmd = true →
      (execStep t e).1.tickerOn = false) := by
  refine ⟨?_, ?_, ?_⟩
  · simp [execStep, hrep]
    exact repeatLookup_delete_self cmd.controller s.repeatcmd
  · intro evs hno
    have hb := execRun_bound evs (execStep s (.command cmd)).1
      cmd.controller hno
    have hp : repeatPotential cmd.controller
        (execStep s (.command cmd)).1.repeatcmd = 0 := by
      simp [execStep, hrep]
      exact repeatPotential_delete_self cmd.controller s.repeatcmd
    omega
  · intro t e h
    cases e with
    | command c =>
      by_cases hr : c.rep
      · simp [execStep, hr, repeatInsert, repeatEmpty] at h
      · simp only [execStep, hr, Bool.false_eq_true, if_false] at h ⊢
        simp [h]
    | tick =>
      simp only [execStep] at h ⊢
      simp [h]

/-- Witness for C4 at a concrete state, command and event sequence. -/
theorem C4_nonsustain_cancels_repeat_witness :
    repeatLookup (execStep ⟨[(1, ⟨50, 90⟩)], true⟩
      (.command ⟨1, 255, false⟩)).1.repeatcmd 1 = none ∧
    writesFor 1 (execRun (execStep ⟨[(1, ⟨50, 90⟩)], true⟩
      (.command ⟨1, 255, false⟩)).1 [.tick, .tick]).2 = 0 := by
  have h := C4_nonsustain_cancels_repeat ⟨[(1, ⟨50, 90⟩)], true⟩
    ⟨1, 255, false⟩ rfl
  exact ⟨h.1, h.2.1 [.tick, .tick] (by decide)⟩

/-- C1: the router's fixed table. A wheel position in 1..7 yields exactly
one sustained command on channel 0 with value `18*(8-p)`; a wheel position
in -7..-1 yields exactly one sustained command on channel 1 with value
`18*(-p)`; a wheel position of 0 (or out of -7..7) yields exactly the two
release commands (0,255) then (1,255); a dial step of +1 yields (2,2) and
of -1 yields (2,1); a button event with id 1..5 yields exactly one command
on channel `2+id` with value 127 when pressed and 0 when released. -/
theorem C1_router_fixed_table :
    (∀ wp : Int, 1 ≤ wp → wp ≤ 7 →
      readshuttleEvent (.wheelPosition wp) =
        [⟨0, (18 * (8 - wp)).toNat, true⟩]) ∧
    (∀ wp : Int, -7 ≤ wp → wp ≤ -1 →
      readshuttleEvent (.wheelPosition wp) =
        [⟨1, (18 * (-wp)).toNat, true⟩]) ∧
    (∀ wp : Int, wp = 0 ∨ wp < -7 ∨ 7 < wp →
      readshuttleEvent (.wheelPosition wp) =
        [⟨0, 255, false⟩, ⟨1, 255, false⟩]) ∧
    readshuttleEvent (.dialDirection 1) = [⟨2, 2, false⟩] ∧
    readshuttleEvent (.dialDirection (-1)) = [⟨2, 1, false⟩] ∧
    (∀ (id : Nat) (b : Bool) (ev : ControlEvent),
      buttonEvent id b = some ev →
      readshuttleEvent ev = [⟨2 + id, if b then 127 else 0, false⟩]) := by
  refine ⟨?_, ?_, ?_, by decide, by decide, ?_⟩
  · intro wp hl hu
    have hv : uint8wrap (int8wrap (18 * (8 - wp))) = (18 * (8 - wp)).toNat := by
      unfold uint8wrap int8wrap
      omega
    simp only [readshuttleEvent]
    split_ifs with hA hB
    · rw [hv]
    · exfalso; omega
    · exfalso; omega
  · intro wp hl hu
    have hv : uint8wrap (int8wrap (18 * (-wp))) = (18 * (-wp)).toNat := by
      unfold uint8wrap int8wrap
      omega
    simp only [readshuttleEvent]
    split_ifs with hA hB
    · exfalso; omega
    · rw [hv]
    · exfalso; omega
  · intro wp hcase
    simp only [readshuttleEvent]
    split_ifs with hA hB
    · exfalso; omega
    · exfalso; omega
    · rfl
  · intro id b ev h
    rcases id with _ | _ | _ | _ | _ | _ | n
    · cases h
    · cases h; cases b <;> rfl
    · cases h; cases b <;> rfl
    · cases h; cases b <;> rfl
    · cases h; cases b <;> rfl
    · cases h; cases b <;> rfl
    · cases h

/-- Witness for C1 at concrete events from every row of the table. -/
theorem C1_router_fixed_table_witness :
    readshuttleEvent (.wheelPosition 3) = [⟨0, 90, true⟩] ∧
    readshuttleEvent (.wheelPosition (-2)) = [⟨1, 36, true⟩] ∧
    readshuttleEvent (.wheelPosition 0) =
      [⟨0, 255, false⟩, ⟨1, 255, false⟩] ∧
    readshuttleEvent (.button3 true) = [⟨5, 127, false⟩] := by
  refine ⟨?_, ?_, ?_, ?_⟩
  · have h := C1_router_fixed_table.1 3 (by decide) (by decide)
    simpa using h
  · have h := C1_router_fixed_table.2.1 (-2) (by decide) (by decide)
    simpa using h
  · exact C1_router_fixed_table.2.2.1 0 (Or.inl rfl)
  · have h := C1_router_fixed_table.2.2.2.2.2 3 true (.button3 true) rfl
    simpa using h

/-- C8, counterexample: a session swap to a sink whose port is listed but
whose `Open()` call fails. Opening the new sink fails
(`outOpenErr = some "open failed"`), yet `startListeners` starts the new
consumer goroutine and reports nothing — the trace contains
`startConsumer` and no `reportError`, and a consumer is running — refuting
the claim that a failed sink open starts no consumer and is reported. -/
theorem C8_counterexample :
    (⟨false, ["ShuttleMIDI 1"], some "open failed"⟩ : OpenEnv).outOpenErr =
      some "open failed" ∧
    startListeners ⟨false, ["ShuttleMIDI 1"], some "open failed"⟩
      "ShuttleMIDI" false =
      .ok ([SessionAction.openSink, SessionAction.startConsumer], true) ∧
    SessionAction.reportError ∉
      [SessionAction.openSink, SessionAction.startConsumer] := by
  refine ⟨rfl, ?_, by decide⟩
  rfl

/-- C8, amended: `startListeners` with a previous session active signals
the previous consumer and closes the previous controller before the open
attempt; when `Open` returns an error (the sink name matches no listed
port), the error is reported and no consumer goroutine is started. But
when a matching port is found and the port's `Open()` call fails, the
failure is only logged: `Open` still returns nil and a new consumer
goroutine is started with nothing reported. -/
theorem C8_session_swap_amended (env : OpenEnv) (midiname : String)
    (prevActive : Bool) :
    (∀ (mc' : midiControl) (err : Option MidiErr),
      OpenModel env (NewMIDIControllerModel midiname) = .ret mc' err →
      startListeners env midiname prevActive =
        .ok ((if prevActive then
               [SessionAction.closeQuitch, SessionAction.closeController]
              else []) ++
             (if err.isSome then
               [SessionAction.openSink, SessionAction.reportError]
              else [SessionAction.openSink, SessionAction.startConsumer]),
             err.isNone)) ∧
    (∀ (e port : String),
      env.newDriverFails = false →
      env.outOpenErr = some e →
      scanOuts env.outs midiname none = some port →
      OpenModel env (NewMIDIControllerModel midiname) =
        .ret { DeviceName := midiname, drv := true, output := some port,
               wr := true, commandch := true, quitch := true } none ∧
      startListeners env midiname prevActive =
        .ok ((if prevActive then
               [SessionAction.closeQuitch, SessionAction.closeController]
              else []) ++
             [SessionAction.openSink, SessionAction.startConsumer], true) ∧
      (∀ acts running,
        startListeners env midiname prevActive = .ok (acts, running) →
        SessionAction.reportError ∉ acts)) := by
  constructor
  · intro mc' err h
    simp only [startListeners]
    rw [h]
    rcases err with _ | e <;> simp
  · intro e port hdrv henv hscan
    have hopen : OpenModel env (NewMIDIControllerModel midiname) =
        .ret { DeviceName := midiname, drv := true, output := some port,
               wr := true, commandch := true, quitch := true } none := by
      simp [OpenModel, NewMIDIControllerModel, hdrv, hscan]
    refine ⟨hopen, ?_, ?_⟩
    · simp only [startListeners]
      rw [hopen]
    · intro acts running hrun
      simp only [startListeners] at hrun
      rw [hopen] at hrun
      simp only [Except.ok.injEq, Prod.mk.injEq] at hrun
      rw [← hrun.1]
      cases prevActive <;> simp

/-- Witness for C8's amended claim: a listed port matching the sink name
whose `Open()` call fails, while a previous session is active. -/
theorem C8_session_swap_amended_witness :
    OpenModel ⟨false, ["ShuttleMIDI 1"], some "open failed"⟩
      (NewMIDIControllerModel "ShuttleMIDI") =
      .ret { DeviceName := "ShuttleMIDI", drv := true,
             output := some "ShuttleMIDI 1", wr := true, commandch := true,
             quitch := true } none ∧
    startListeners ⟨false, ["ShuttleMIDI 1"], some "open failed"⟩
      "ShuttleMIDI" true =
      .ok ([SessionAction.closeQuitch, SessionAction.closeController,
            SessionAction.openSink, SessionAction.startConsumer], true) := by
  have h := (C8_session_swap_amended
    ⟨false, ["ShuttleMIDI 1"], some "open failed"⟩ "ShuttleMIDI" true).2
    "open failed" "ShuttleMIDI 1" rfl rfl (by decide)
  refine ⟨h.1, ?_⟩
  have h2 := h.2.1
  simpa using h2

/-- C9: `SendCommand` on a controller whose sink is not open (`output` is
nil) returns `ErrMIDIDeviceNotInitialized` and enqueues nothing; with the
sink open it enqueues exactly the one command and returns nil. -/
theorem C9_sendcommand_requires_open (mc : midiControl)
    (controller value : Nat) (rep : Bool) :
    (mc.output = none →
      SendCommandModel mc controller value rep =
        (some .deviceNotInitialized, [])) ∧
    (mc.output ≠ none →
      SendCommandModel mc controller value rep =
        (none, [⟨controller, value, rep⟩])) := by
  constructor
  · intro h
    simp [SendCommandModel, h]
  · intro h
    simp [SendCommandModel, h]

/-- Witness for C9 on a fresh (unopened) controller and on an opened one. -/
theorem C9_sendcommand_requires_open_witness :
    SendCommandModel (NewMIDIControllerModel "ShuttleMIDI") 0 90 true =
      (some .deviceNotInitialized, []) ∧
    SendCommandModel
      { NewMIDIControllerModel "ShuttleMIDI" with output := some "port" }
      0 90 true = (none, [⟨0, 90, true⟩]) := by
  constructor
  · exact (C9_sendcommand_requires_open
      (NewMIDIControllerModel "ShuttleMIDI") 0 90 true).1 rfl
  · exact (C9_sendcommand_requires_open
      { NewMIDIControllerModel "ShuttleMIDI" with output := some "port" }
      0 90 true).2 (by simp)

/-- C10: `Close` is only safe after a successful `Open`. On a fresh
controller `Close` panics (close of the nil quit channel); an `Open` that
returns an error leaves `quitch` nil, and `Close` on that state panics; a
normal `Open` return of nil is exactly what makes `quitch` non-nil. -/
theorem C10_close_unsafe_without_open (env : OpenEnv) (name : String) :
    (∃ msg, CloseModel (NewMIDIControllerModel name) = .error msg) ∧
    (∀ (mc' : midiControl) (e : MidiErr),
      OpenModel env (NewMIDIControllerModel name) = .ret mc' (some e) →
      mc'.quitch = false ∧ ∃ msg, CloseModel mc' = .error msg) ∧
    (∀ mc mc' : midiControl,
      OpenModel env mc = .ret mc' none → mc'.quitch = true) := by
  refine ⟨⟨"close of nil channel", rfl⟩, ?_, ?_⟩
  · intro mc' e h
    simp only [OpenModel, NewMIDIControllerModel] at h
    split_ifs at h with hdrv
    rcases hscan : scanOuts env.outs name none with _ | port
    · rw [hscan] at h
      simp only [OpenResult.ret.injEq, Option.some.injEq] at h
      obtain ⟨h1, h2⟩ := h
      subst h1
      exact ⟨rfl, ⟨"close of nil channel", rfl⟩⟩
    · rw [hscan] at h
      simp at h
  · intro mc mc' h
    simp only [OpenModel] at h
    split_ifs at h with hdrv
    rcases hscan : scanOuts env.outs mc.DeviceName mc.output with _ | port
    · rw [hscan] at h
      simp at h
    · rw [hscan] at h
      simp only [OpenResult.ret.injEq] at h
      rw [← h.1]

/-- Witness for C10: a failing `Open` (no port matches the name) leaves
`quitch` nil and `Close` then panics. -/
theorem C10_close_unsafe_without_open_witness :
    ({ DeviceName := "ShuttleMIDI", drv := true, output := none,
       wr := false, commandch := false, quitch := false } :
        midiControl).quitch = false ∧
    ∃ msg, CloseModel
      { DeviceName := "ShuttleMIDI", drv := true, output := none,
        wr := false, commandch := false, quitch := false } = .error msg := by
  exact (C10_close_unsafe_without_open ⟨false, ["loopMIDI Port"], none⟩
    "ShuttleMIDI").2.1
    { DeviceName := "ShuttleMIDI", drv := true, output := none,
      wr := false, commandch := false, quitch := false }
    MidiErr.deviceNotFound (by decide)

end ShuttleMidi
